import Mathlib

/-!
Verification of the cherry-pick reconciliation core of `check_picks.py`
(repository `ot-scripts`).

The Python program loads a corpus of pull-request records, infers
cherry-pick relationships from the free text of each record
(`index_cherrypicks`), reconciles the records based on a target branch
against the primary branch (`tabulate_branch`, `on_branch`), applies the
fixed manual override table `MANUAL`, and assembles an abstract report
(`render_table`).

This file gives a shallow embedding of those functions and proves the
specification claims about them.  Python dictionaries keyed by PR number
become `List PR` with the record's `number` field playing the role of the
key (the database keys records by their `number`).  In-place mutation of
the corpus becomes explicit: `index_cherrypicks` and `tabulate_corpus`
return the updated corpus.
-/

/-! ## Case-insensitive matching primitives

The Python code matches with `re.I` (case-insensitive) regexes over the
title and body of each record.  `lowerN` is ASCII lower-casing of a
character code, the semantics `re.I` applies to the pattern letters used
here; `\d+` is modelled over the ASCII digits.
-/

/-- ASCII lower-case of a character code: letters A..Z map to a..z. -/
def lowerN (c : Char) : Nat :=
  if 65 ≤ c.toNat ∧ c.toNat ≤ 90 then c.toNat + 32 else c.toNat

/-- Case-insensitive character equality, as `re.I` compares letters. -/
def ciEq (p c : Char) : Bool := lowerN p == lowerN c

/-- ASCII digit test, the characters matched by `\d` here. -/
def isDigitC (c : Char) : Bool := decide (48 ≤ c.toNat) && decide (c.toNat ≤ 57)

/-- Strip the literal pattern `p` (case-insensitively) from the front of
`l`, returning the rest of `l` on success. -/
def ciStrip : List Char → List Char → Option (List Char)
  | [], l => some l
  | _ :: _, [] => none
  | p :: ps, c :: cs => if ciEq p c then ciStrip ps cs else none

/-- Numeric value of a digit string, as Python `int(...)` reads the
captured group `\d+`. -/
def digitsVal (l : List Char) : Nat :=
  l.foldl (fun a c => 10 * a + (c.toNat - 48)) 0

/-- Greedy `(\d+)` at the front of `l`: the maximal run of digits, failing
when it is empty. -/
def parseDigits (l : List Char) : Option Nat :=
  let d := l.takeWhile isDigitC
  if d = [] then none else some (digitsVal d)

/-! ## The three regexes of `index_cherrypicks`

`pick = cherry[ -]?pick (?:of |from )(?:#|https.*pull/)(\d+)`,
`backport = backport(?: of)? (?:#|https.*pull/)(\d+)` and
`cp = cherry[ -]?pick`, all compiled with `re.I` and used through
`.search`, i.e. tried at every start position, leftmost match first, with
the usual greedy backtracking inside one position.
-/

def cherryP : List Char := ['c', 'h', 'e', 'r', 'r', 'y']
def pickSpP : List Char := ['p', 'i', 'c', 'k', ' ']
def pickP : List Char := ['p', 'i', 'c', 'k']
def ofSpP : List Char := ['o', 'f', ' ']
def fromSpP : List Char := ['f', 'r', 'o', 'm', ' ']
def hashP : List Char := ['#']
def httpsP : List Char := ['h', 't', 't', 'p', 's']
def pullP : List Char := ['p', 'u', 'l', 'l', '/']
def backportP : List Char := ['b', 'a', 'c', 'k', 'p', 'o', 'r', 't']
def spOfP : List Char := [' ', 'o', 'f']
def spP : List Char := [' ']

/-- Try `pull/(\d+)` right here (one backtracking stop of `.*`). -/
def pullHere (l : List Char) : Option Nat := (ciStrip pullP l).bind parseDigits

/-- Greedy `.*pull/(\d+)`: `.` does not cross a newline, and the longest
`.*` wins, so the latest `pull/` (followed by at least one digit) before
the next newline is taken. -/
def starPull : List Char → Option Nat
  | [] => pullHere []
  | c :: cs =>
    if c = '\n' then pullHere (c :: cs)
    else (starPull cs).orElse (fun _ => pullHere (c :: cs))

/-- The reference part `(?:#|https.*pull/)(\d+)`: the `#` alternative is
tried first, with backtracking into `https.*pull/` when it fails. -/
def refTail (l : List Char) : Option Nat :=
  ((ciStrip hashP l).bind parseDigits).orElse
    (fun _ => (ciStrip httpsP l).bind starPull)

/-- The part `(?:of |from )(?:#|https.*pull/)(\d+)` of the pick regex. -/
def pickTail (l : List Char) : Option Nat :=
  ((ciStrip ofSpP l).bind refTail).orElse (fun _ => (ciStrip fromSpP l).bind refTail)

/-- The part `pick (?:of |from )...` after `cherry[ -]?`. -/
def pickRest (l : List Char) : Option Nat := (ciStrip pickSpP l).bind pickTail

/-- Match the whole pick regex at the front of `l`.  After `cherry`, the
greedy `[ -]?` first consumes a space or hyphen and backtracks to the
empty alternative when the rest then fails. -/
def matchAtPick (l : List Char) : Option Nat :=
  match ciStrip cherryP l with
  | none => none
  | some r =>
    match r with
    | [] => pickRest []
    | c :: cs =>
      if c = ' ' ∨ c = '-' then (pickRest cs).orElse (fun _ => pickRest (c :: cs))
      else pickRest (c :: cs)

/-- `re.search` for the pick regex: try every position, leftmost first. -/
def searchPick : List Char → Option Nat
  | [] => matchAtPick []
  | c :: cs => (matchAtPick (c :: cs)).orElse (fun _ => searchPick cs)

/-- Match the backport regex at the front of `l`: after `backport`, the
greedy `(?: of)?` first consumes ` of` and backtracks when the rest then
fails; then a literal space and the reference part follow. -/
def matchAtBackport (l : List Char) : Option Nat :=
  match ciStrip backportP l with
  | none => none
  | some r =>
    ((ciStrip spOfP r).bind (fun s => (ciStrip spP s).bind refTail)).orElse
      (fun _ => (ciStrip spP r).bind refTail)

/-- `re.search` for the backport regex. -/
def searchBackport : List Char → Option Nat
  | [] => matchAtBackport []
  | c :: cs => (matchAtBackport (c :: cs)).orElse (fun _ => searchBackport cs)

/-- Match the bare `cherry[ -]?pick` regex at the front of `l`. -/
def matchAtCp (l : List Char) : Bool :=
  match ciStrip cherryP l with
  | none => false
  | some r =>
    match r with
    | [] => (ciStrip pickP []).isSome
    | c :: cs =>
      if c = ' ' ∨ c = '-' then (ciStrip pickP cs).isSome || (ciStrip pickP (c :: cs)).isSome
      else (ciStrip pickP (c :: cs)).isSome

/-- `re.search` for the bare cherry-pick regex. -/
def searchCp : List Char → Bool
  | [] => matchAtCp []
  | c :: cs => matchAtCp (c :: cs) || searchCp cs

/-- The classification step of `index_cherrypicks` for one record:
`pick.search(body)`, then `pick.search(title)`, then
`backport.search(title)`, then `backport.search(body)`, then
`cp.search(body)` giving the sentinel 0, else the Python `None`
(here `none`). -/
def infer_pick (title body : List Char) : Option Nat :=
  match searchPick body with
  | some n => some n
  | none =>
    match searchPick title with
    | some n => some n
    | none =>
      match searchBackport title with
      | some n => some n
      | none =>
        match searchBackport body with
        | some n => some n
        | none => if searchCp body then some 0 else none

/-! ## Data model

A PR record as loaded from the database (`get_prs`), with the input
contract fields `number`, `title`, `body`, `baseRefName`, `headRefName`,
`headRepositoryOwner.login` and `mergedAt`, plus the derived fields the
pipeline attaches to the very same dictionary.  For a derived field,
`none` means the key is absent and `some x` that the key holds `x`;
for `pick` the inner `none` is the Python `None` ("not a pick") and
`some 0` the unresolved-pick sentinel; for `from` the inner `none` is the
Python `None` written by the not-a-pick branch; for `to_master` the inner
`none` is the Python `None`.  Raw records are built with the derived
fields absent (`pick := none` standing for the key not yet written;
`index_cherrypicks` always writes it before anything reads it). -/
structure PR where
  number : Nat
  title : String
  body : String
  baseRefName : String
  headRefName : String
  ownerLogin : String
  mergedAt : String
  pick : Option Nat := none
  fromBranch : Option (Option String) := none
  to_master : Option (Option Nat) := none
deriving DecidableEq, Repr

/-- The corpus pass of `index_cherrypicks(prs)`: classify every record,
writing its `pick` field.  The Python function mutates the dict in place;
here the updated corpus is returned. -/
def index_cherrypicks (prs : List PR) : List PR :=
  prs.map fun v => { v with pick := infer_pick v.title.data v.body.data }

/-- Python truthiness of the `pick` value: `None` and `0` are falsy. -/
def pick_truthy : Option Nat → Bool
  | some n => n != 0
  | none => false

/-- Dictionary lookup `prs.get(p)`: the corpus is keyed by PR number. -/
def corpus_get (prs : List PR) (p : Nat) : Option PR :=
  prs.find? (fun s => s.number == p)

/-- The reverse lookup `on_branch(prs, pr, branch)`: all records based on
`branch` whose `pick` equals `pr`; exactly one match is returned, more
than one is a data-integrity condition - `logging.error` fires (the
second component models that) and no match is returned; zero matches
return no match. -/
def on_branch (prs : List PR) (pr : Nat) (branch : String) : Option PR × Bool :=
  let table := prs.filter (fun v => v.baseRefName == branch && v.pick == some pr)
  match table with
  | [v] => (some v, false)
  | [] => (none, false)
  | _ => (none, true)

/-- The not-a-cherrypick branch of the `tabulate_branch` loop body (also
taken when `pick == 0`): `from` is set to `None`, and `to_master` to the
number of the record that picked this one to master, else `None`. -/
def notPick (prs : List PR) (v : PR) : PR :=
  let v1 := { v with fromBranch := some none }
  match (on_branch prs v.number "master").1 with
  | some t => { v1 with to_master := some (some t.number) }
  | none => { v1 with to_master := some none }

/-- One iteration of the `tabulate_branch` loop for record `v`.  The
lookups read only `baseRefName`, `pick` and `number`, which the loop never
writes, so evaluating them against the pre-pass corpus `prs` is exactly
the Python in-place behaviour. -/
def tabulate_one (prs : List PR) (v : PR) : PR :=
  if pick_truthy v.pick then
    match corpus_get prs (v.pick.getD 0) with
    | some src =>
      let v1 := { v with fromBranch := some (some src.baseRefName) }
      if src.baseRefName ≠ "master" then
        match (on_branch prs (v.pick.getD 0) "master").1 with
        | some t => { v1 with to_master := some (some t.number) }
        | none =>
          match (on_branch prs v.number "master").1 with
          | some t => { v1 with to_master := some (some t.number) }
          | none => { v1 with to_master := some none }
      else v1
    | none =>
      let v1 := { v with fromBranch := some (some "unknown"), to_master := some none }
      match (on_branch prs v.number "master").1 with
      | some t => { v1 with to_master := some (some t.number) }
      | none => { v1 with to_master := some none }
  else notPick prs v

/-- The effect of `tabulate_branch(prs, branch)` on the shared corpus:
every record based on `branch` is updated in place by the loop body,
every other record is untouched. -/
def tabulate_corpus (prs : List PR) (branch : String) : List PR :=
  prs.map fun v => if v.baseRefName = branch then tabulate_one prs v else v

/-- The value `tabulate_branch(prs, branch)` returns: the sub-dict of
records based on `branch`, after the loop updated them. -/
def tabulate_branch (prs : List PR) (branch : String) : List PR :=
  (prs.filter (fun v => v.baseRefName == branch)).map (tabulate_one prs)

/-! ## The manual override table `MANUAL` -/

/-- One entry of `MANUAL`: optional replacement values; `none` means the
key is absent from the entry. -/
structure ManualEntry where
  pick : Option Nat := none
  fromBranch : Option String := none
  to_master : Option Nat := none
  notes : Option String := none
deriving DecidableEq, Repr

/-- The fixed override table of `check_picks.py`. -/
def MANUAL : List (Nat × ManualEntry) := [
  (24834, { pick := some 24345, fromBranch := some "master" }),
  (24872, { to_master := some 24838 }),
  (24939, { to_master := some 25888 }),
  (24976, { to_master := some 25991 }),
  (24977, { to_master := some 25997 }),
  (24984, { fromBranch := some "master" }),
  (25018, { fromBranch := some "N/A" }),
  (25020, { fromBranch := some "N/A" }),
  (25036, { fromBranch := some "N/A" }),
  (25126, { pick := some 25119, fromBranch := some "master" }),
  (25195, { notes := some "Investigate" }),
  (25273, { pick := some 25268, fromBranch := some "master" }),
  (25275, { fromBranch := some "N/A" })]

/-- `MANUAL.get(k)`. -/
def manual_get (k : Nat) : Option ManualEntry :=
  (MANUAL.find? (fun e => e.1 == k)).map (fun e => e.2)

/-! ## Report assembly (`render_table`)

The local variables of the loop body, lines 250-265 of the source.  The
Python locals conflate differently-typed falsy values; the embedding keeps
one `Option` level: local `pick` is `""` (for a record whose `pick` is
`None`) or an int - both falsy states and the int 0 collapse into
`none`/`some 0`, which the rest of the loop never tells apart; local
`to_master` is `""` (key absent), `None` or an int, and only its
truthiness and int value are ever used, so `Option Nat`; local `source`
is `None` or a string (`v["from"]` - tabulation always wrote the key);
local `notes` is `v.get("notes", "")`, and a loaded record carries no
`notes` key (the input contract fields are listed above), so it is `""`
before overriding. -/
structure Eff where
  pick : Option Nat
  to_master : Option Nat
  source : Option String
  notes : String
deriving DecidableEq, Repr

/-- The loop-body locals before the override block. -/
def reconciled (v : PR) : Eff :=
  { pick := v.pick
    to_master := match v.to_master with
      | some (some n) => some n
      | _ => none
    source := match v.fromBranch with
      | some s => s
      | none => none
    notes := "" }

/-- The override block: `manual.get("pick", pick)` and so on; note that
`notes` defaults to `""`, not to the prior value. -/
def apply_manual (k : Nat) (e : Eff) : Eff :=
  match manual_get k with
  | some m =>
    { pick := match m.pick with | some p => some p | none => e.pick
      to_master := match m.to_master with | some t => some t | none => e.to_master
      source := match m.fromBranch with | some s => some s | none => e.source
      notes := match m.notes with | some n => n | none => "" }
  | none => e

/-- The post-override loop-body locals for record `v`. -/
def effective (v : PR) : Eff := apply_manual v.number (reconciled v)

/-- A report cell: a plain string, a `UrlCell`, or (the degenerate branch
of `render_pr_link`) the falsy non-`Cell` value handed back unchanged. -/
inductive Cell where
  | text (s : String)
  | url (u : String) (label : String)
  | num (n : Nat)
deriving DecidableEq, Repr

/-- `html.escape` with its default `quote=True`. -/
def html_escape_char (c : Char) : String :=
  if c = '&' then "&amp;"
  else if c = '<' then "&lt;"
  else if c = '>' then "&gt;"
  else if c = '"' then "&quot;"
  else if c = '\'' then "&#x27;"
  else String.mk [c]

/-- `html.escape` over a whole string. -/
def html_escape (s : String) : String :=
  String.mk (s.data.foldr (fun c acc => (html_escape_char c).data ++ acc) [])

/-- `render_pr_link(pr, label)`: a hyperlink cell when `pr` is truthy,
else `pr` itself (only ints reach this function). -/
def render_pr_link (pr : Nat) (label : Option String) : Cell :=
  let lab := label.getD (Nat.repr pr)
  if pr ≠ 0 then
    Cell.url ("https://github.com/lowRISC/opentitan/pull/" ++ Nat.repr pr) lab
  else Cell.num pr

/-- Python `f"{source}"` on the `source` local: `None` prints as `None`. -/
def py_str_src : Option String → String
  | some s => s
  | none => "None"

/-- Truthiness of the `to_master` local. -/
def tm_truthy : Option Nat → Bool
  | some n => n != 0
  | none => false

/-- One row of the abstract report: a color name and six cells. -/
structure Row where
  color : Option String
  columns : List Cell
deriving DecidableEq, Repr

/-- The abstract report returned by `render_table`. -/
structure Report where
  headers : List String
  rows : List Row
  desc : List String
deriving DecidableEq, Repr

/-- Whether the loop body increments `picked` for this record (else it
increments `unpicked`): the post-override `to_master` is truthy or the
post-override `from` equals `"master"`. -/
def counts_picked (v : PR) : Bool :=
  tm_truthy (effective v).to_master || (effective v).source == some "master"

/-- The loop body of `render_table` for one record: color assignment
(`green` for resolved, overwritten by `n/a` when `from == "N/A"`, and
`color = color or "yellow"` when notes are present - an already assigned
color survives), then the six cells. -/
def render_row (v : PR) : Row :=
  let e := effective v
  let color0 : Option String :=
    if tm_truthy e.to_master || e.source == some "master" then some "green" else none
  let color1 : Option String := if e.source == some "N/A" then some "n/a" else color0
  let notesAnn : String :=
    if e.notes ≠ "" then " <b>(NOTE: " ++ html_escape e.notes ++ ")</b>" else ""
  let color2 : Option String :=
    if e.notes ≠ "" then some (color1.getD "yellow") else color1
  { color := color2
    columns := [
      render_pr_link v.number none,
      if tm_truthy e.to_master then render_pr_link (e.to_master.getD 0) none
      else Cell.text "",
      if pick_truthy e.pick then
        render_pr_link (e.pick.getD 0)
          (some (Nat.repr (e.pick.getD 0) ++ " on " ++ py_str_src e.source))
      else Cell.text "",
      Cell.text (html_escape v.title ++ notesAnn),
      Cell.text (html_escape v.mergedAt),
      Cell.text (html_escape v.ownerLogin ++ ":" ++ html_escape v.headRefName)] }

/-- Insertion step for `sorted(table.keys())`, ordering rows by number. -/
def insertByNumber (v : PR) : List PR → List PR
  | [] => [v]
  | w :: ws => if v.number ≤ w.number then v :: w :: ws else w :: insertByNumber v ws

/-- The records of the table in ascending `number` order. -/
def sortByNumber (l : List PR) : List PR := l.foldr insertByNumber []

/-- The final value of the `picked` counter. -/
def picked_count (table : List PR) : Nat := (table.filter counts_picked).length

/-- The final value of the `unpicked` counter. -/
def unpicked_count (table : List PR) : Nat :=
  (table.filter (fun v => !counts_picked v)).length

/-- `render_table(table)`: headers, one row per record in ascending
number order, and the two summary lines. -/
def render_table (table : List PR) : Report :=
  { headers := ["PR", "To Master", "From", "Title", "Merged", "Author"]
    rows := (sortByNumber table).map render_row
    desc := [
      Nat.repr (picked_count table) ++ " of " ++ Nat.repr table.length ++
        " already exist on master",
      Nat.repr (unpicked_count table) ++ " of " ++ Nat.repr table.length ++
        " need cherry-picks"] }

/-! ## Lemmas about the matching primitives -/

/-- Stripping a fully matched prefix is stable under extending the input. -/
theorem ciStrip_append (p l t r : List Char) (h : ciStrip p l = some r) :
    ciStrip p (l ++ t) = some (r ++ t) := by
  induction p generalizing l with
  | nil =>
    simp [ciStrip] at h
    subst h
    simp [ciStrip]
  | cons pc pcs ih =>
    cases l with
    | nil => simp [ciStrip] at h
    | cons c cs =>
      by_cases hc : ciEq pc c = true
      · simp [ciStrip, hc] at h ⊢
        exact ih cs h
      · simp [ciStrip, hc] at h

/-- A nonempty all-digit string parses to its numeric value. -/
theorem parseDigits_all (d : List Char) (h1 : d ≠ [])
    (h2 : ∀ c ∈ d, isDigitC c = true) : parseDigits d = some (digitsVal d) := by
  unfold parseDigits
  rw [List.takeWhile_eq_self_iff.mpr h2]
  simp [h1]

/-- A digit is not case-insensitively equal to the letter `c`. -/
theorem ciEq_c_digit (c : Char) (h : isDigitC c = true) : ciEq 'c' c = false := by
  simp only [isDigitC, Bool.and_eq_true, decide_eq_true_eq] at h
  have hlc : lowerN c = c.toNat := by
    unfold lowerN
    rw [if_neg]
    omega
  have hc : lowerN 'c' = 99 := by decide
  unfold ciEq
  rw [hc, hlc]
  simp only [beq_eq_false_iff_ne, ne_eq]
  omega

/-- The pick regex cannot match at a position whose first character is not
a case-insensitive `c`. -/
theorem matchAtPick_head_fail (c : Char) (cs : List Char)
    (h : ciEq 'c' c = false) : matchAtPick (c :: cs) = none := by
  have hs : ciStrip cherryP (c :: cs) = none := by
    show ciStrip ('c' :: ['h', 'e', 'r', 'r', 'y']) (c :: cs) = none
    simp [ciStrip, h]
  simp [matchAtPick, hs]

/-- Nor at a position reading `c` but not then a case-insensitive `h`. -/
theorem matchAtPick_two_fail (c1 c2 : Char) (cs : List Char)
    (h1 : ciEq 'c' c1 = true) (h2 : ciEq 'h' c2 = false) :
    matchAtPick (c1 :: c2 :: cs) = none := by
  have hs : ciStrip cherryP (c1 :: c2 :: cs) = none := by
    show ciStrip ('c' :: 'h' :: ['e', 'r', 'r', 'y']) (c1 :: c2 :: cs) = none
    simp [ciStrip, h1, h2]
  simp [matchAtPick, hs]

/-- A failed position moves the pick search one step along. -/
theorem searchPick_cons_none (c : Char) (cs : List Char)
    (h : matchAtPick (c :: cs) = none) : searchPick (c :: cs) = searchPick cs := by
  simp [searchPick, h, Option.orElse]

/-- A successful position settles the pick search. -/
theorem searchPick_cons_some (c : Char) (cs : List Char) (n : Nat)
    (h : matchAtPick (c :: cs) = some n) : searchPick (c :: cs) = some n := by
  simp [searchPick, h, Option.orElse]

/-- A successful position settles the backport search. -/
theorem searchBackport_cons_some (c : Char) (cs : List Char) (n : Nat)
    (h : matchAtBackport (c :: cs) = some n) :
    searchBackport (c :: cs) = some n := by
  simp [searchBackport, h, Option.orElse]

/-- The pick regex never matches inside an all-digit string. -/
theorem searchPick_digits (d : List Char) (h : ∀ c ∈ d, isDigitC c = true) :
    searchPick d = none := by
  induction d with
  | nil => rfl
  | cons c cs ih =>
    rw [searchPick_cons_none c cs
      (matchAtPick_head_fail c cs (ciEq_c_digit c (h c (by simp))))]
    exact ih (fun x hx => h x (by simp [hx]))

/-! ## The four referenced-pick phrasing variants -/

/-- The characters of `cherry-pick of #`, to be followed by the digits of
the referenced PR number. -/
def chPickOfHash : List Char :=
  ['c', 'h', 'e', 'r', 'r', 'y', '-', 'p', 'i', 'c', 'k', ' ', 'o', 'f', ' ', '#']

/-- The characters of `backport of #`, to be followed by the digits of
the referenced PR number. -/
def bpOfHash : List Char :=
  ['b', 'a', 'c', 'k', 'p', 'o', 'r', 't', ' ', 'o', 'f', ' ', '#']

/-- A body consisting of a lower-priority backport reference. -/
def bpBody7 : List Char := "backport of #7".data

/-- A body with a bare cherry-pick mention and no resolvable reference. -/
def bareCpBody : List Char := "contains a cherry pick somewhere".data

/-- The pick regex matches at the start of `cherry-pick of #` followed by
digits, capturing exactly those digits. -/
theorem matchAtPick_pick_phrase (d : List Char) (n : Nat) (h : parseDigits d = some n) :
    matchAtPick (chPickOfHash ++ d) = some n := by
  have e1 : ciStrip cherryP (chPickOfHash ++ d)
      = some (['-', 'p', 'i', 'c', 'k', ' ', 'o', 'f', ' ', '#'] ++ d) :=
    ciStrip_append _ _ _ _ (by decide)
  have e2 : ciStrip pickSpP (['p', 'i', 'c', 'k', ' ', 'o', 'f', ' ', '#'] ++ d)
      = some (['o', 'f', ' ', '#'] ++ d) := ciStrip_append _ _ _ _ (by decide)
  have e3 : ciStrip ofSpP (['o', 'f', ' ', '#'] ++ d) = some (['#'] ++ d) :=
    ciStrip_append _ _ _ _ (by decide)
  have e4 : ciStrip hashP (['#'] ++ d) = some ([] ++ d) :=
    ciStrip_append _ _ _ _ (by decide)
  simp only [List.cons_append, List.nil_append] at e1 e2 e3 e4
  simp [matchAtPick, e1, pickRest, e2, pickTail, e3, refTail, e4, h, Option.orElse]

/-- The backport regex matches at the start of `backport of #` followed by
digits, capturing exactly those digits. -/
theorem matchAtBackport_bp_phrase (d : List Char) (n : Nat) (h : parseDigits d = some n) :
    matchAtBackport (bpOfHash ++ d) = some n := by
  have e1 : ciStrip backportP (bpOfHash ++ d) = some ([' ', 'o', 'f', ' ', '#'] ++ d) :=
    ciStrip_append _ _ _ _ (by decide)
  have e2 : ciStrip spOfP ([' ', 'o', 'f', ' ', '#'] ++ d) = some ([' ', '#'] ++ d) :=
    ciStrip_append _ _ _ _ (by decide)
  have e3 : ciStrip spP ([' ', '#'] ++ d) = some (['#'] ++ d) :=
    ciStrip_append _ _ _ _ (by decide)
  have e4 : ciStrip hashP (['#'] ++ d) = some ([] ++ d) :=
    ciStrip_append _ _ _ _ (by decide)
  simp only [List.cons_append, List.nil_append] at e1 e2 e3 e4
  simp [matchAtBackport, e1, e2, e3, refTail, e4, h, Option.orElse]

/-- The pick regex finds no match anywhere in `backport of #` followed by
digits. -/
theorem searchPick_bp_phrase (d : List Char) (h : ∀ c ∈ d, isDigitC c = true) :
    searchPick (bpOfHash ++ d) = none := by
  have t13 : searchPick d = none := searchPick_digits d h
  have t12 : searchPick ('#' :: d) = none := by
    rw [searchPick_cons_none _ _ (matchAtPick_head_fail _ _ (by decide))]; exact t13
  have t11 : searchPick (' ' :: '#' :: d) = none := by
    rw [searchPick_cons_none _ _ (matchAtPick_head_fail _ _ (by decide))]; exact t12
  have t10 : searchPick ('f' :: ' ' :: '#' :: d) = none := by
    rw [searchPick_cons_none _ _ (matchAtPick_head_fail _ _ (by decide))]; exact t11
  have t9 : searchPick ('o' :: 'f' :: ' ' :: '#' :: d) = none := by
    rw [searchPick_cons_none _ _ (matchAtPick_head_fail _ _ (by decide))]; exact t10
  have t8 : searchPick (' ' :: 'o' :: 'f' :: ' ' :: '#' :: d) = none := by
    rw [searchPick_cons_none _ _ (matchAtPick_head_fail _ _ (by decide))]; exact t9
  have t7 : searchPick ('t' :: ' ' :: 'o' :: 'f' :: ' ' :: '#' :: d) = none := by
    rw [searchPick_cons_none _ _ (matchAtPick_head_fail _ _ (by decide))]; exact t8
  have t6 : searchPick ('r' :: 't' :: ' ' :: 'o' :: 'f' :: ' ' :: '#' :: d) = none := by
    rw [searchPick_cons_none _ _ (matchAtPick_head_fail _ _ (by decide))]; exact t7
  have t5 : searchPick ('o' :: 'r' :: 't' :: ' ' :: 'o' :: 'f' :: ' ' :: '#' :: d) = none := by
    rw [searchPick_cons_none _ _ (matchAtPick_head_fail _ _ (by decide))]; exact t6
  have t4 : searchPick ('p' :: 'o' :: 'r' :: 't' :: ' ' :: 'o' :: 'f' :: ' ' :: '#' :: d)
      = none := by
    rw [searchPick_cons_none _ _ (matchAtPick_head_fail _ _ (by decide))]; exact t5
  have t3 : searchPick ('k' :: 'p' :: 'o' :: 'r' :: 't' :: ' ' :: 'o' :: 'f' :: ' ' :: '#' :: d)
      = none := by
    rw [searchPick_cons_none _ _ (matchAtPick_head_fail _ _ (by decide))]; exact t4
  have t2 : searchPick
      ('c' :: 'k' :: 'p' :: 'o' :: 'r' :: 't' :: ' ' :: 'o' :: 'f' :: ' ' :: '#' :: d)
      = none := by
    rw [searchPick_cons_none _ _ (matchAtPick_two_fail _ _ _ (by decide) (by decide))]
    exact t3
  have t1 : searchPick
      ('a' :: 'c' :: 'k' :: 'p' :: 'o' :: 'r' :: 't' :: ' ' :: 'o' :: 'f' :: ' ' :: '#' :: d)
      = none := by
    rw [searchPick_cons_none _ _ (matchAtPick_head_fail _ _ (by decide))]; exact t2
  have t0 : searchPick
      ('b' :: 'a' :: 'c' :: 'k' :: 'p' :: 'o' :: 'r' :: 't' :: ' ' :: 'o' :: 'f' :: ' ' :: '#' :: d)
      = none := by
    rw [searchPick_cons_none _ _ (matchAtPick_head_fail _ _ (by decide))]; exact t1
  exact t0

/-- Searching finds the pick phrase at position 0. -/
theorem searchPick_pick_phrase (d : List Char) (n : Nat) (h : parseDigits d = some n) :
    searchPick (chPickOfHash ++ d) = some n :=
  searchPick_cons_some 'c'
    (['h', 'e', 'r', 'r', 'y', '-', 'p', 'i', 'c', 'k', ' ', 'o', 'f', ' ', '#'] ++ d) n
    (matchAtPick_pick_phrase d n h)

/-- Searching finds the backport phrase at position 0. -/
theorem searchBackport_bp_phrase (d : List Char) (n : Nat) (h : parseDigits d = some n) :
    searchBackport (bpOfHash ++ d) = some n :=
  searchBackport_cons_some 'b'
    (['a', 'c', 'k', 'p', 'o', 'r', 't', ' ', 'o', 'f', ' ', '#'] ++ d) n
    (matchAtBackport_bp_phrase d n h)

/-- C4: the classification evaluates its patterns in strict priority order
(referenced pick in body, then in title, then referenced backport in
title, then in body, then a bare cherry-pick mention in body giving the
sentinel 0, else no pick), the first matching rule wins, and each of the
four referenced-pick phrasings yields exactly the referenced integer
(`digitsVal d` for the digit string `d`): a pick reference in the body
wins over any title whatsoever; a pick reference in the title wins over a
backport reference in the body; a backport reference in the title wins
over a bare cherry-pick mention in the body; a backport reference in the
body is still found; a bare mention alone gives 0; nothing gives the
Python `None`. -/
theorem c4_inference_priority_and_extraction (d : List Char) (h1 : d ≠ [])
    (h2 : ∀ c ∈ d, isDigitC c = true) :
    (∀ t, infer_pick t (chPickOfHash ++ d) = some (digitsVal d)) ∧
    (infer_pick (chPickOfHash ++ d) bpBody7 = some (digitsVal d)) ∧
    (infer_pick (bpOfHash ++ d) bareCpBody = some (digitsVal d)) ∧
    (infer_pick [] (bpOfHash ++ d) = some (digitsVal d)) ∧
    (infer_pick [] bareCpBody = some 0) ∧
    (infer_pick [] [] = none) := by
  have hpd : parseDigits d = some (digitsVal d) := parseDigits_all d h1 h2
  have hs1 : searchPick (chPickOfHash ++ d) = some (digitsVal d) :=
    searchPick_pick_phrase d _ hpd
  have hs2 : searchPick (bpOfHash ++ d) = none := searchPick_bp_phrase d h2
  have hs3 : searchBackport (bpOfHash ++ d) = some (digitsVal d) :=
    searchBackport_bp_phrase d _ hpd
  refine ⟨?_, ?_, ?_, ?_, ?_, rfl⟩
  · intro t
    simp [infer_pick, hs1]
  · simp [infer_pick, hs1, show searchPick bpBody7 = none from by decide]
  · simp [infer_pick, hs2, hs3, show searchPick bareCpBody = none from by decide]
  · simp [infer_pick, hs2, hs3, show searchPick ([] : List Char) = none from rfl,
      show searchBackport ([] : List Char) = none from rfl]
  · simp [infer_pick, show searchPick bareCpBody = none from by decide,
      show searchBackport bareCpBody = none from by decide,
      show searchCp bareCpBody = true from by decide,
      show searchPick ([] : List Char) = none from rfl,
      show searchBackport ([] : List Char) = none from rfl]

/-- Witness for C4 at the digit string `90`. -/
theorem c4_witness :
    (['9', '0'] : List Char) ≠ [] ∧
    infer_pick [] (chPickOfHash ++ ['9', '0']) = some (digitsVal ['9', '0']) ∧
    infer_pick [] (bpOfHash ++ ['9', '0']) = some (digitsVal ['9', '0']) :=
  ⟨by decide,
   (c4_inference_priority_and_extraction ['9', '0'] (by decide) (by decide)).1 [],
   (c4_inference_priority_and_extraction ['9', '0'] (by decide) (by decide)).2.2.2.1⟩

/-- A raw record with the given number, title, body and base branch; the
remaining input fields are empty and the derived keys absent. -/
def mkPR (n : Nat) (t b base : String) : PR :=
  { number := n, title := t, body := b, baseRefName := base,
    headRefName := "", ownerLogin := "", mergedAt := "" }

/-- C5: the reverse lookup `on_branch(prs, x, b)` scans the records based
on `b` whose `pick` equals `x`; a unique match is returned without
warning, more than one match raises the (non-fatal) data-integrity
warning and returns no match - never an arbitrary winner - and zero
matches return no match; moreover any returned record really is a record
of the corpus based on `b` whose `pick` is `x`. -/
theorem c5_reverse_lookup (prs : List PR) (x : Nat) (b : String) :
    (∀ v, prs.filter (fun v => v.baseRefName == b && v.pick == some x) = [v] →
      on_branch prs x b = (some v, false)) ∧
    ((prs.filter (fun v => v.baseRefName == b && v.pick == some x)).length > 1 →
      on_branch prs x b = (none, true)) ∧
    (prs.filter (fun v => v.baseRefName == b && v.pick == some x) = [] →
      on_branch prs x b = (none, false)) ∧
    (∀ v, (on_branch prs x b).1 = some v →
      v ∈ prs ∧ v.baseRefName = b ∧ v.pick = some x) := by
  have hsub : ∀ v, v ∈ prs.filter (fun v => v.baseRefName == b && v.pick == some x) →
      v ∈ prs ∧ v.baseRefName = b ∧ v.pick = some x := by
    intro v hv
    have hm := List.mem_filter.1 hv
    simp only [Bool.and_eq_true, beq_iff_eq] at hm
    exact ⟨hm.1, hm.2.1, hm.2.2⟩
  refine ⟨fun v hv => by simp [on_branch, hv], ?_, fun hv => by simp [on_branch, hv], ?_⟩
  · intro hlen
    rcases h : prs.filter (fun v => v.baseRefName == b && v.pick == some x) with
        _ | ⟨a, _ | ⟨c, l⟩⟩
    · simp [h] at hlen
    · simp [h] at hlen
    · simp [on_branch, h]
  · intro v hv
    rcases h : prs.filter (fun v => v.baseRefName == b && v.pick == some x) with
        _ | ⟨a, _ | ⟨c, l⟩⟩
    · simp [on_branch, h] at hv
    · simp only [on_branch, h, Option.some.injEq] at hv
      exact hv ▸ hsub a (by rw [h]; exact List.mem_singleton_self _)
    · simp [on_branch, h] at hv

/-- Two records based on master both claiming to pick PR 5. -/
def c5prs : List PR :=
  [{ mkPR 7 "" "" "master" with pick := some 5 },
   { mkPR 8 "" "" "master" with pick := some 5 }]

/-- Witness for C5: the ambiguous lookup warns and returns no match. -/
theorem c5_witness : on_branch c5prs 5 "master" = (none, true) :=
  (c5_reverse_lookup c5prs 5 "master").2.1 (by decide)

/-- C8: a record classified `pick == 0` takes the not-a-pick branch of the
loop: its `to_master` comes from the reverse lookup on master for a
record picking the record's own identifier (the record's number standing
for the Python dict key, null when the lookup finds no match), its `from`
is set to the Python `None` (no source branch exists), and the record is
tabulated like every other record based on the target branch. -/
theorem c8_pick_zero (prs : List PR) (branch : String) (v : PR) (h : v.pick = some 0) :
    (tabulate_one prs v).fromBranch = some none ∧
    (tabulate_one prs v).to_master
      = some (Option.map PR.number (on_branch prs v.number "master").1) ∧
    (v ∈ prs → v.baseRefName = branch →
      tabulate_one prs v ∈ tabulate_branch prs branch) := by
  have ht : pick_truthy v.pick = false := by rw [h]; rfl
  refine ⟨?_, ?_, ?_⟩
  · simp only [tabulate_one, ht, Bool.false_eq_true, if_false, notPick]
    cases (on_branch prs v.number "master").1 <;> simp
  · simp only [tabulate_one, ht, Bool.false_eq_true, if_false, notPick]
    cases (on_branch prs v.number "master").1 <;> simp
  · intro hv hb
    exact List.mem_map_of_mem (tabulate_one prs)
      (List.mem_filter.2 ⟨hv, by simp [hb]⟩)

/-- A release-branch record with a bare unresolved pick marker. -/
def c8a : PR := { mkPR 10 "" "" "release" with pick := some 0 }

/-- A corpus where master record 30 picked record 10. -/
def c8prs : List PR := [c8a, { mkPR 30 "" "" "master" with pick := some 10 }]

/-- Witness for C8. -/
theorem c8_witness :
    (tabulate_one c8prs c8a).fromBranch = some none ∧
    (tabulate_one c8prs c8a).to_master
      = some (Option.map PR.number (on_branch c8prs c8a.number "master").1) :=
  ⟨(c8_pick_zero c8prs "release" c8a rfl).1,
   (c8_pick_zero c8prs "release" c8a rfl).2.1⟩

/-- The tabulation loop body touches only the `from` and `to_master` keys
of a record; every loaded field and the `pick` classification survive. -/
theorem tabulate_one_fields (prs : List PR) (v : PR) :
    (tabulate_one prs v).number = v.number ∧
    (tabulate_one prs v).title = v.title ∧
    (tabulate_one prs v).body = v.body ∧
    (tabulate_one prs v).baseRefName = v.baseRefName ∧
    (tabulate_one prs v).headRefName = v.headRefName ∧
    (tabulate_one prs v).ownerLogin = v.ownerLogin ∧
    (tabulate_one prs v).mergedAt = v.mergedAt ∧
    (tabulate_one prs v).pick = v.pick := by
  unfold tabulate_one notPick
  repeat' split
  all_goals simp

/-- C7 (amended): the corpus is mutated by the Reconciler as well - the
`tabulate_branch` loop writes, in place, the `from` and `to_master` keys
of every record based on the target branch.  The mutation goes no
further: a record not based on the target branch is left fully unchanged,
and a record on the branch keeps every loaded field and its `pick`
classification.  The later stages (override application and report
assembly in `render_table`) only read the table and return a fresh
report, mutating no record. -/
theorem c7_mutation_scope (prs : List PR) (branch : String) (i : Nat) (v : PR)
    (h : prs[i]? = some v) :
    ∃ w, (tabulate_corpus prs branch)[i]? = some w ∧
      (v.baseRefName ≠ branch → w = v) ∧
      w.number = v.number ∧ w.title = v.title ∧ w.body = v.body ∧
      w.baseRefName = v.baseRefName ∧ w.headRefName = v.headRefName ∧
      w.ownerLogin = v.ownerLogin ∧ w.mergedAt = v.mergedAt ∧ w.pick = v.pick := by
  refine ⟨if v.baseRefName = branch then tabulate_one prs v else v, ?_, ?_, ?_⟩
  · simp [tabulate_corpus, List.getElem?_map, h]
  · intro hb
    simp [hb]
  · by_cases hb : v.baseRefName = branch
    · simpa [hb] using tabulate_one_fields prs v
    · simp [hb]

/-- A one-record corpus on the release branch. -/
def c7prs : List PR := [mkPR 1 "" "" "release"]

/-- Counterexample to C7 as stated: reconciling the target branch does
mutate the corpus after inference has run - record 1 acquires the `from`
and `to_master` keys. -/
theorem c7_counterexample :
    tabulate_corpus (index_cherrypicks c7prs) "release" ≠ index_cherrypicks c7prs := by
  decide

/-- A record based on a branch other than the tabulated one. -/
def c7wpr : PR := mkPR 2 "" "" "dev"

/-- Witness for C7 (amended) at a one-record corpus. -/
theorem c7_witness :
    ∃ w, (tabulate_corpus [c7wpr] "release")[0]? = some w ∧
      (c7wpr.baseRefName ≠ "release" → w = c7wpr) ∧
      w.number = c7wpr.number ∧ w.title = c7wpr.title ∧ w.body = c7wpr.body ∧
      w.baseRefName = c7wpr.baseRefName ∧ w.headRefName = c7wpr.headRefName ∧
      w.ownerLogin = c7wpr.ownerLogin ∧ w.mergedAt = c7wpr.mergedAt ∧
      w.pick = c7wpr.pick :=
  c7_mutation_scope [c7wpr] "release" 0 c7wpr rfl

/-- C9: the assembled report has the six headers PR, To Master, From,
Title, Merged, Author, and every row carries exactly that many cells,
positionally aligned (cell 0 the PR link, 1 To Master, 2 From, 3 Title,
4 Merged, 5 Author, as built by `render_row`). -/
theorem c9_row_width (table : List PR) :
    (render_table table).headers.length = 6 ∧
    ∀ row ∈ (render_table table).rows,
      row.columns.length = (render_table table).headers.length := by
  refine ⟨rfl, ?_⟩
  intro row hrow
  simp only [render_table] at hrow
  obtain ⟨v, hv, rfl⟩ := List.mem_map.1 hrow
  simp [render_row, render_table]

/-- A sample record for the C9 witness. -/
def c9pr : PR := mkPR 3 "t" "" "release"

/-- Witness for C9 on a one-row table. -/
theorem c9_witness :
    (render_row c9pr).columns.length = (render_table [c9pr]).headers.length :=
  (c9_row_width [c9pr]).2 (render_row c9pr) (by decide)

/-- C3: for an identifier present in `MANUAL`, each of `pick`, `from`
(`source`), `to_master`, `notes` present in the entry replaces the
reconciled value, and each field absent from the entry keeps the
reconciled value (for `notes` the entry-absent default is `""`, which is
exactly the reconciled value, since a loaded record carries no notes). -/
theorem c3_override_precedence (v : PR) (m : ManualEntry)
    (h : manual_get v.number = some m) :
    ((m.pick = none → (effective v).pick = (reconciled v).pick) ∧
      ∀ p, m.pick = some p → (effective v).pick = some p) ∧
    ((m.to_master = none → (effective v).to_master = (reconciled v).to_master) ∧
      ∀ t, m.to_master = some t → (effective v).to_master = some t) ∧
    ((m.fromBranch = none → (effective v).source = (reconciled v).source) ∧
      ∀ s, m.fromBranch = some s → (effective v).source = some s) ∧
    ((m.notes = none → (effective v).notes = (reconciled v).notes) ∧
      ∀ s, m.notes = some s → (effective v).notes = s) := by
  simp only [effective, apply_manual, h]
  exact ⟨⟨fun hx => by simp [hx], fun p hp => by simp [hp]⟩,
    ⟨fun hx => by simp [hx], fun t hp => by simp [hp]⟩,
    ⟨fun hx => by simp [hx], fun s hp => by simp [hp]⟩,
    ⟨fun hx => by simp [hx, reconciled], fun s hp => by simp [hp]⟩⟩

/-- The record MANUAL overrides as a pick of 24345 from master. -/
def c3pr : PR := mkPR 24834 "" "" "earlgrey_1.0.0"

/-- The MANUAL entry of PR 24834. -/
def m24834 : ManualEntry := { pick := some 24345, fromBranch := some "master" }

/-- Witness for C3: present override fields replace, absent ones stay. -/
theorem c3_witness :
    (effective c3pr).pick = some 24345 ∧
    (effective c3pr).source = some "master" ∧
    (effective c3pr).to_master = (reconciled c3pr).to_master :=
  ⟨(c3_override_precedence c3pr m24834 (by decide)).1.2 24345 rfl,
   (c3_override_precedence c3pr m24834 (by decide)).2.2.1.2 "master" rfl,
   (c3_override_precedence c3pr m24834 (by decide)).2.1.1 rfl⟩

/-- C1 (amended): when the post-override `notes` is non-empty, the title
cell (cell 3) always gets the notes appended as the bolded, HTML-escaped
annotation, and the row always ends up colored, but the color is the
needs-attention `"yellow"` only when no earlier rule assigned one
(`color = color or "yellow"` keeps an already assigned `"green"` or
`"n/a"`): it is yellow exactly when `to_master` is falsy, `from` is not
`"master"` and `from` is not `"N/A"`. -/
theorem c1_notes_rule (v : PR) (h : (effective v).notes ≠ "") :
    (render_row v).columns[3]? = some (Cell.text (html_escape v.title ++
      (" <b>(NOTE: " ++ html_escape (effective v).notes ++ ")</b>"))) ∧
    (render_row v).color.isSome = true ∧
    (tm_truthy (effective v).to_master = false →
      (effective v).source ≠ some "master" →
      (effective v).source ≠ some "N/A" →
      (render_row v).color = some "yellow") := by
  refine ⟨?_, ?_, ?_⟩
  · simp [render_row, h]
  · simp only [render_row, h]
    split <;> simp
  · intro h1 h2 h3
    simp [render_row, h, h1, h2, h3]

/-- PR 25195 (MANUAL notes `Investigate`) reconciled with a truthy
`to_master`. -/
def c1pr : PR := { mkPR 25195 "t" "" "release" with to_master := some (some 7) }

/-- Counterexample to C1 as stated: a row with non-empty notes whose
`to_master` is set keeps the resolved color `"green"` - the
needs-attention color does not apply regardless of the earlier rules. -/
theorem c1_counterexample :
    (effective c1pr).notes = "Investigate" ∧
    (render_row c1pr).color = some "green" ∧
    (render_row c1pr).color ≠ some "yellow" := by decide

/-- PR 25195 reconciled with nothing resolved. -/
def c1w : PR := mkPR 25195 "t" "" "release"

/-- Witness for C1 (amended): on an otherwise uncolored row the notes
rule does give yellow. -/
theorem c1_witness :
    (effective c1w).notes ≠ "" ∧ (render_row c1w).color = some "yellow" :=
  ⟨by decide,
   (c1_notes_rule c1w (by decide)).2.2 (by decide) (by decide) (by decide)⟩

/-- C2 (amended): a row whose post-override `from` is `"N/A"` always ends
with the not-applicable color `"n/a"` (the check runs after the resolved
check and overwrites it, and a non-empty note keeps an assigned color).
The counters are not skipped, though: every row increments exactly one of
`picked`/`unpicked` - such a row increments `picked` exactly when its
post-override `to_master` is truthy (since `"N/A"` is not `"master"`),
else `unpicked`. -/
theorem c2_na_color (v : PR) (h : (effective v).source = some "N/A") :
    (render_row v).color = some "n/a" ∧
    counts_picked v = tm_truthy (effective v).to_master ∧
    ∀ table : List PR, picked_count table + unpicked_count table = table.length := by
  refine ⟨?_, ?_, ?_⟩
  · simp [render_row, h]
  · simp [counts_picked, h]
  · intro table
    exact (List.length_eq_length_filter_add counts_picked).symm

/-- PR 25018 (MANUAL from `N/A`) reconciled with a truthy `to_master`. -/
def c2pr : PR := { mkPR 25018 "t" "" "release" with to_master := some (some 7) }

/-- Counterexample to C2 as stated: the not-applicable row still feeds a
counter - with `to_master` set it increments `picked`, it is not skipped
by both counters. -/
theorem c2_counterexample :
    (effective c2pr).source = some "N/A" ∧
    picked_count [c2pr] = 1 ∧
    (render_row c2pr).color = some "n/a" := by decide

/-- A record whose reconciled `from` is the `"N/A"` sentinel. -/
def c2w : PR := { mkPR 4 "t" "" "release" with fromBranch := some (some "N/A") }

/-- Witness for C2 (amended). -/
theorem c2_witness :
    (effective c2w).source = some "N/A" ∧
    (render_row c2w).color = some "n/a" ∧
    counts_picked c2w = tm_truthy (effective c2w).to_master :=
  ⟨by decide, (c2_na_color c2w (by decide)).1, (c2_na_color c2w (by decide)).2.1⟩

/-- C10: unless `MANUAL` supplies a `pick` override for the identifier, a
record classified `pick == 0` assembles into exactly the same row as the
same record not classified a pick at all - in particular the From cell
(cell 2) is the empty string, not a hyperlink, because both the sentinel
0 and the Python `None` are falsy in the cell-construction test. -/
theorem c10_pick_zero_indistinguishable (v : PR)
    (h : ((manual_get v.number).all (fun m => m.pick == none)) = true) :
    render_row { v with pick := some 0 } = render_row { v with pick := none } ∧
    (render_row { v with pick := some 0 }).columns[2]? = some (Cell.text "") := by
  rcases hm : manual_get v.number with _ | m
  · constructor
    · simp [render_row, effective, apply_manual, reconciled, hm, pick_truthy]
    · simp [render_row, effective, apply_manual, reconciled, hm, pick_truthy]
  · rw [hm] at h
    simp only [Option.all_some, beq_iff_eq] at h
    constructor
    · simp [render_row, effective, apply_manual, reconciled, hm, h, pick_truthy]
    · simp [render_row, effective, apply_manual, reconciled, hm, h, pick_truthy]

/-- A tabulated not-a-pick record outside `MANUAL`. -/
def c10pr : PR :=
  { mkPR 6 "t" "" "release" with fromBranch := some none, to_master := some none }

/-- Witness for C10. -/
theorem c10_witness :
    render_row { c10pr with pick := some 0 } = render_row { c10pr with pick := none } ∧
    (render_row { c10pr with pick := some 0 }).columns[2]? = some (Cell.text "") :=
  c10_pick_zero_indistinguishable c10pr (by decide)

/-- The three-record scenario corpus: 200 on release backporting 90,
90 on dev, 91 on master cherry-picking 90. -/
def c6corpus : List PR :=
  [mkPR 200 "" "backport of #90" "release",
   mkPR 90 "" "" "dev",
   mkPR 91 "cherry-pick of #90" "" "master"]

/-- C6: reconciling `release` over the scenario corpus yields exactly one
row, for PR 200, with `from = "dev"` and `to_master = 91`, and its color
is the resolved `"green"` (the row also counts as picked). -/
theorem c6_end_to_end :
    (tabulate_branch (index_cherrypicks c6corpus) "release").map
      (fun v => (v.number, v.fromBranch, v.to_master))
      = [(200, some (some "dev"), some (some 91))] ∧
    (render_table (tabulate_branch (index_cherrypicks c6corpus) "release")).rows.map
      Row.color = [some "green"] ∧
    picked_count (tabulate_branch (index_cherrypicks c6corpus) "release") = 1 := by
  decide
